import Mathlib

/-!
Verification of the webhook-triggered pull-request review pipeline
(`scripts/reviewer.py`).

The program is a single linear pipeline: parse an inbound event payload,
filter on event shape, fetch the pull-request diff over HTTP, send a prompt
to a text-generation service, classify the returned text into a verdict by
substring search, post the review as a comment and set a commit status.

The shallow embedding below reproduces the program's data flow as pure
functions.  External effects (the HTTP GET of the diff, the model call, the
two POSTs) are modelled by oracle functions passed in as arguments, and the
pipeline returns the ordered list of outbound calls it performs, so that
"performs zero outbound calls" and "posts exactly one status" become facts
about that list.
-/

/-- Result of `requests.get(diff_url, ...)`: HTTP status code and body text. -/
structure DiffResponse where
  status_code : Nat
  text : String
deriving DecidableEq, Repr

/-- Result of `model.generate_content(prompt)`: either the response text or a
raised exception carrying its string description `str(e)`. -/
inductive GenResult where
  | ok (text : String)
  | err (msg : String)
deriving DecidableEq, Repr

/-- The `user` sub-record of the payload's `pull_request`; `none` for a field
models absence of the corresponding JSON key (`pr["user"]["login"]`). -/
structure PRUser where
  login : Option String
deriving DecidableEq, Repr

/-- The `pull_request` record of the decoded payload.  Each `Option` field
models presence/absence of the JSON key; `pr["k"]` on an absent key raises
`KeyError` in the source. -/
structure PRRecord where
  diff_url : Option String
  comments_url : Option String
  statuses_url : Option String
  title : Option String
  user : Option PRUser
deriving DecidableEq, Repr

/-- The decoded inbound event payload (`json.loads(GITHUB_PAYLOAD)`): an
`action` string (absent key gives `payload.get("action") = None`) and an
optional `pull_request` record. -/
structure Payload where
  action : Option String
  pull_request : Option PRRecord
deriving DecidableEq, Repr

/-- One outbound call of the pipeline, in the order the program issues them. -/
inductive HttpCall where
  | getDiff (url : String)
  | genModel (prompt : String)
  | postComment (url : String) (body : String)
  | postStatus (url : String) (state : String) (target_url : Option String)
      (description : String) (context : String)
deriving DecidableEq, Repr

/-- How one invocation of `run()` ends: `skipped` models a bare `return`
(silent no-op, process exits 0), `keyError k` models an uncaught `KeyError`
on key `k` (nonzero exit), `completed` models reaching the end of `run()`. -/
inductive RunOutcome where
  | skipped
  | keyError (key : String)
  | completed
deriving DecidableEq, Repr

/-- Python substring test `pat in s`, as infix of the character lists. -/
def strContains (s pat : String) : Bool := decide (pat.data <:+: s.data)

/-- Character class of Python's `str.strip()` / `str.isspace()` (ASCII
whitespace, the C1 separators, and the Unicode space separators). -/
def pyIsSpace (c : Char) : Bool :=
  c = ' ' || c = '\t' || c = '\n' || c = '\r' || c = '\x0b' || c = '\x0c' ||
  c = '\x1c' || c = '\x1d' || c = '\x1e' || c = '\x1f' || c = '\x85' ||
  c = '\xa0' || c = '\u1680' || (0x2000 ≤ c.toNat && c.toNat ≤ 0x200a) ||
  c = '\u2028' || c = '\u2029' || c = '\u202f' || c = '\u205f' || c = '\u3000'

/-- Python's `not code_diff or not code_diff.strip()` on a present string:
true iff the string is empty or all of its characters are whitespace. -/
def isBlank (s : String) : Bool := s.data.all pyIsSpace

/-- Truthiness of an optional environment variable: `os.environ.get` returns
`None` when unset, and Python's `not` also treats `""` as false. -/
def truthy : Option String → Bool
  | none => false
  | some s => !s.isEmpty

/-- The verdict derived from the model's review text. -/
inductive Verdict where
  | Approved
  | ChangesRequested
  | Inconclusive
deriving DecidableEq, Repr

/-- Literal marker tested first (line 109 of the source). -/
def requestChangesMarker : String := "⚠️ **REQUEST CHANGES**"

/-- Literal marker tested second (line 112 of the source). -/
def approveMarker : String := "✅ **APPROVE**"

/-- The verdict classifier: the `if/elif/else` chain of lines 109–117,
substring search with REQUEST CHANGES tested first. -/
def classify (review : String) : Verdict :=
  if strContains review requestChangesMarker then Verdict.ChangesRequested
  else if strContains review approveMarker then Verdict.Approved
  else Verdict.Inconclusive

/-- The `(state, description)` pair passed to `update_pr_status` for each
verdict branch of lines 109–117. -/
def statusDescription : Verdict → String × String
  | Verdict.ChangesRequested => ("failure", "AI Review failed: Changes Requested.")
  | Verdict.Approved => ("success", "AI Review passed successfully.")
  | Verdict.Inconclusive => ("error", "AI Review was inconclusive.")

/-- `post_comment(comments_url, body)`: POST of the body plus the fixed
attribution suffix to the comments endpoint. -/
def post_comment (comments_url body : String) : HttpCall :=
  HttpCall.postComment comments_url (body ++ "\n\n_— Reviewed by OS-Maintainer Bot 🤖_")

/-- `update_pr_status(status_url, state, description)`: POST of the status
record, with `target_url` from `KESTRA_EXECUTION_URL` and the fixed context. -/
def update_pr_status (status_url state : String) (kestra : Option String)
    (description : String) : HttpCall :=
  HttpCall.postStatus status_url state kestra description "OS-Maintainer / AI-Reviewer"

/-- `get_pr_diff`: `response.text if response.status_code == 200 else None`. -/
def get_pr_diff (response : DiffResponse) : Option String :=
  if response.status_code == 200 then some response.text else none

/-- The diff truncation of `analyze_code_with_gemini` lines 65–66: diffs over
30000 characters keep the first 30000 and gain the fixed notice. -/
def truncateDiff (diff_text : String) : String :=
  if diff_text.length > 30000 then diff_text.take 30000 ++ "\n... (Diff truncated)"
  else diff_text

/-- The f-string prompt of `analyze_code_with_gemini`, with the (already
truncated) diff text, PR title and author handle interpolated. -/
def buildPrompt (diff_text pr_title user : String) : String :=
  "\n    You are 'OS-Maintainer', an expert Senior Software Engineer.\n    Review PR from @"
  ++ user ++ ". Title: " ++ pr_title ++ ". Code: ```diff " ++ diff_text
  ++ "```\n    \n    Instructions: 1. Check for **Security Leaks** and **Logic Bugs**. 2. Be helpful. 3. Verdict: End with either '✅ **APPROVE**' or '⚠️ **REQUEST CHANGES**'.\n    "

/-- The synthesized review text returned when the model call raises `e`. -/
def aiErrorText (e : String) : String :=
  "⚠️ **AI Error:** Could not analyze code. The model failed to respond. (" ++ e ++ ")"

/-- `analyze_code_with_gemini(diff_text, pr_title, user)` with the model call
abstracted as the oracle `gen`: truncate, build the prompt, call the model,
and on failure return the synthesized error text instead of propagating. -/
def analyze_code_with_gemini (gen : String → GenResult)
    (diff_text pr_title user : String) : String :=
  match gen (buildPrompt (truncateDiff diff_text) pr_title user) with
  | GenResult.ok t => t
  | GenResult.err e => aiErrorText e

/-- The action filter of line 88: `action in ["opened", "reopened", "synchronize"]`. -/
def actionAllowed (action : Option String) : Bool :=
  action == some "opened" || action == some "reopened" || action == some "synchronize"

/-- `run()`: the main execution flow (lines 82–117).  `diffResp` is the HTTP
oracle for the diff GET, `gen` the model oracle, `kestra` the optional
`KESTRA_EXECUTION_URL`.  Returns how the run ends and the ordered list of
outbound calls it performed. -/
def run (payload : Payload) (kestra : Option String)
    (diffResp : String → DiffResponse) (gen : String → GenResult) :
    RunOutcome × List HttpCall :=
  match payload.pull_request with
  | none => (RunOutcome.skipped, [])
  | some pr =>
    if !actionAllowed payload.action then (RunOutcome.skipped, [])
    else match pr.diff_url with
    | none => (RunOutcome.keyError "diff_url", [])
    | some diff_url =>
      match pr.comments_url with
      | none => (RunOutcome.keyError "comments_url", [])
      | some comments_url =>
        match pr.statuses_url with
        | none => (RunOutcome.keyError "statuses_url", [])
        | some statuses_url =>
          match get_pr_diff (diffResp diff_url) with
          | none => (RunOutcome.skipped, [HttpCall.getDiff diff_url])
          | some code_diff =>
            if isBlank code_diff then (RunOutcome.skipped, [HttpCall.getDiff diff_url])
            else match pr.title with
            | none => (RunOutcome.keyError "title", [HttpCall.getDiff diff_url])
            | some title =>
              match pr.user with
              | none => (RunOutcome.keyError "user", [HttpCall.getDiff diff_url])
              | some u =>
                match u.login with
                | none => (RunOutcome.keyError "login", [HttpCall.getDiff diff_url])
                | some login =>
                  let prompt := buildPrompt (truncateDiff code_diff) title login
                  let review := analyze_code_with_gemini gen code_diff title login
                  let sd := statusDescription (classify review)
                  (RunOutcome.completed,
                    [HttpCall.getDiff diff_url,
                     HttpCall.genModel prompt,
                     post_comment comments_url review,
                     update_pr_status statuses_url sd.1 kestra sd.2])

/-- How the whole process ends: nonzero exit at configuration loading, or the
main flow ran and ended with the given outcome. -/
inductive TopOutcome where
  | exitNonzero
  | finished (o : RunOutcome)
deriving DecidableEq, Repr

/-- The module toplevel (lines 22–32) followed by `run()`: exit 1 when the
`GITHUB_PAYLOAD` variable is unset or empty, when it fails to parse as JSON
(`parse` is the `json.loads` oracle), or when either credential is missing
or empty; otherwise execute the pipeline. -/
def toplevel (github_payload : Option String) (parse : String → Option Payload)
    (github_token google_api_key kestra : Option String)
    (diffResp : String → DiffResponse) (gen : String → GenResult) :
    TopOutcome × List HttpCall :=
  match github_payload with
  | none => (TopOutcome.exitNonzero, [])
  | some pj =>
    if pj.isEmpty then (TopOutcome.exitNonzero, [])
    else match parse pj with
    | none => (TopOutcome.exitNonzero, [])
    | some payload =>
      if !truthy github_token || !truthy google_api_key then (TopOutcome.exitNonzero, [])
      else
        let r := run payload kestra diffResp gen
        (TopOutcome.finished r.1, r.2)

/-! ## Concrete fixtures used by witnesses -/

/-- A fully populated `pull_request` record. -/
def samplePR : PRRecord :=
  { diff_url := some "https://example.com/pr/1.diff",
    comments_url := some "https://example.com/pr/1/comments",
    statuses_url := some "https://example.com/statuses/abc",
    title := some "Fix bug",
    user := some { login := some "octocat" } }

/-- A valid `opened` event carrying `samplePR`. -/
def samplePayload : Payload :=
  { action := some "opened", pull_request := some samplePR }

/-- Diff oracle answering HTTP 200 with a short non-blank diff. -/
def sampleDiffResp : String → DiffResponse :=
  fun _ => { status_code := 200, text := "+ added line" }

/-- Model oracle answering with an approving review. -/
def sampleGenApprove : String → GenResult :=
  fun _ => GenResult.ok "Looks good. ✅ **APPROVE**"

/-! ## Helper lemmas -/

theorem get_pr_diff_some {r : DiffResponse} {c : String}
    (h : get_pr_diff r = some c) : r.status_code = 200 ∧ c = r.text := by
  unfold get_pr_diff at h
  split at h
  · next h200 =>
      refine ⟨by simpa using h200, ?_⟩
      injection h with h2
      exact h2.symm
  · exact absurd h (by simp)

/-- Forward characterization: when every lookup succeeds, the diff fetch
returns 200 with a non-blank body, the run completes with exactly the four
outbound calls in order. -/
theorem run_completed_trace (payload : Payload) (kestra : Option String)
    (diffResp : String → DiffResponse) (gen : String → GenResult)
    (pr : PRRecord) (du curl surl title : String) (u : PRUser) (login : String)
    (hpr : payload.pull_request = some pr)
    (hact : actionAllowed payload.action = true)
    (hdu : pr.diff_url = some du)
    (hcu : pr.comments_url = some curl)
    (hsu : pr.statuses_url = some surl)
    (hcode : (diffResp du).status_code = 200)
    (hblank : isBlank (diffResp du).text = false)
    (hti : pr.title = some title)
    (hu : pr.user = some u)
    (hl : u.login = some login) :
    run payload kestra diffResp gen =
      (RunOutcome.completed,
       [HttpCall.getDiff du,
        HttpCall.genModel (buildPrompt (truncateDiff (diffResp du).text) title login),
        post_comment curl (analyze_code_with_gemini gen (diffResp du).text title login),
        update_pr_status surl
          (statusDescription (classify (analyze_code_with_gemini gen (diffResp du).text title login))).1
          kestra
          (statusDescription (classify (analyze_code_with_gemini gen (diffResp du).text title login))).2]) := by
  have hg : get_pr_diff (diffResp du) = some (diffResp du).text := by
    simp [get_pr_diff, hcode]
  unfold run
  rw [hpr]
  simp only [hact, Bool.not_true, Bool.false_eq_true, if_false,
    hdu, hcu, hsu, hg, hti, hu, hl, hblank]

/-- Inverse characterization: a completed run determines the shape of its
outbound-call trace. -/
theorem run_completed_inv (payload : Payload) (kestra : Option String)
    (diffResp : String → DiffResponse) (gen : String → GenResult)
    (trace : List HttpCall)
    (h : run payload kestra diffResp gen = (RunOutcome.completed, trace)) :
    ∃ pr du curl surl title u login code_diff,
      payload.pull_request = some pr ∧
      actionAllowed payload.action = true ∧
      pr.diff_url = some du ∧
      pr.comments_url = some curl ∧
      pr.statuses_url = some surl ∧
      pr.title = some title ∧
      pr.user = some u ∧
      u.login = some login ∧
      get_pr_diff (diffResp du) = some code_diff ∧
      trace = [HttpCall.getDiff du,
        HttpCall.genModel (buildPrompt (truncateDiff code_diff) title login),
        post_comment curl (analyze_code_with_gemini gen code_diff title login),
        update_pr_status surl
          (statusDescription (classify (analyze_code_with_gemini gen code_diff title login))).1
          kestra
          (statusDescription (classify (analyze_code_with_gemini gen code_diff title login))).2] := by
  unfold run at h
  split at h
  · exact absurd h (by simp)
  next pr hpr =>
    split at h
    · exact absurd h (by simp)
    next hact =>
      split at h
      · exact absurd h (by simp)
      next du hdu =>
        split at h
        · exact absurd h (by simp)
        next curl hcu =>
          split at h
          · exact absurd h (by simp)
          next surl hsu =>
            split at h
            · exact absurd h (by simp)
            next code_diff hg =>
              split at h
              · exact absurd h (by simp)
              next hblank =>
                split at h
                · exact absurd h (by simp)
                next title hti =>
                  split at h
                  · exact absurd h (by simp)
                  next u hu =>
                    split at h
                    · exact absurd h (by simp)
                    next login hl =>
                      simp only [Prod.mk.injEq] at h
                      refine ⟨pr, du, curl, surl, title, u, login, code_diff,
                        hpr, by simpa using hact, hdu, hcu, hsu, hti, hu, hl, hg, ?_⟩
                      exact h.2.symm

/-! ## Claim theorems -/

/-- C1: for every review text, containing "⚠️ **REQUEST CHANGES**" (with or
without "✅ **APPROVE**") yields ChangesRequested; containing only
"✅ **APPROVE**" yields Approved; containing neither yields Inconclusive.
The classification is a pure substring-search function of the text, with the
REQUEST CHANGES test first as the tie-break. -/
theorem classifier_substring_spec (text : String) :
    (requestChangesMarker.data <:+: text.data →
      classify text = Verdict.ChangesRequested) ∧
    (¬ requestChangesMarker.data <:+: text.data →
      approveMarker.data <:+: text.data → classify text = Verdict.Approved) ∧
    (¬ requestChangesMarker.data <:+: text.data →
      ¬ approveMarker.data <:+: text.data →
      classify text = Verdict.Inconclusive) :=
  ⟨fun h => by simp [classify, strContains, h],
   fun h1 h2 => by simp [classify, strContains, h1, h2],
   fun h1 h2 => by simp [classify, strContains, h1, h2]⟩

/-- Witness for C1 at a concrete text containing both markers. -/
theorem classifier_substring_spec_witness :
    classify "bad. ✅ **APPROVE** but also ⚠️ **REQUEST CHANGES**" =
      Verdict.ChangesRequested :=
  (classifier_substring_spec _).1 (by decide)

/-- C3: for every diff text of length L, the prompt handed to the generation
service contains the diff unmodified when L ≤ 30000, and otherwise contains
exactly the first 30000 characters followed by the literal notice
"\n... (Diff truncated)". -/
theorem prompt_truncation_spec (diff_text pr_title user : String) :
    (diff_text.length ≤ 30000 →
      ∃ pre post,
        buildPrompt (truncateDiff diff_text) pr_title user =
          pre ++ diff_text ++ post) ∧
    (diff_text.length > 30000 →
      ∃ pre post,
        buildPrompt (truncateDiff diff_text) pr_title user =
          pre ++ (diff_text.take 30000 ++ "\n... (Diff truncated)") ++ post) := by
  constructor
  · intro h
    refine ⟨"\n    You are 'OS-Maintainer', an expert Senior Software Engineer.\n    Review PR from @"
      ++ user ++ ". Title: " ++ pr_title ++ ". Code: ```diff ",
      "```\n    \n    Instructions: 1. Check for **Security Leaks** and **Logic Bugs**. 2. Be helpful. 3. Verdict: End with either '✅ **APPROVE**' or '⚠️ **REQUEST CHANGES**'.\n    ", ?_⟩
    unfold buildPrompt truncateDiff
    rw [if_neg (by omega)]
  · intro h
    refine ⟨"\n    You are 'OS-Maintainer', an expert Senior Software Engineer.\n    Review PR from @"
      ++ user ++ ". Title: " ++ pr_title ++ ". Code: ```diff ",
      "```\n    \n    Instructions: 1. Check for **Security Leaks** and **Logic Bugs**. 2. Be helpful. 3. Verdict: End with either '✅ **APPROVE**' or '⚠️ **REQUEST CHANGES**'.\n    ", ?_⟩
    unfold buildPrompt truncateDiff
    rw [if_pos h]

/-- Witness for C3 at a short concrete diff. -/
theorem prompt_truncation_spec_witness :
    ∃ pre post,
      buildPrompt (truncateDiff "+ added line") "Fix bug" "octocat" =
        pre ++ "+ added line" ++ post :=
  (prompt_truncation_spec "+ added line" "Fix bug" "octocat").1 (by decide)

/-- C4: an event lacking the `pull_request` key, or whose action is outside
{opened, reopened, synchronize}, makes the run a silent successful no-op with
zero outbound calls. -/
theorem filter_noop (payload : Payload) (kestra : Option String)
    (diffResp : String → DiffResponse) (gen : String → GenResult)
    (h : payload.pull_request = none ∨ actionAllowed payload.action = false) :
    run payload kestra diffResp gen = (RunOutcome.skipped, []) := by
  rcases h with h | h
  · unfold run; rw [h]
  · unfold run
    cases hpr : payload.pull_request with
    | none => rfl
    | some pr => simp [h]

/-- Witness for C4 at a concrete `closed` event. -/
theorem filter_noop_witness :
    run { action := some "closed", pull_request := some samplePR } none
      sampleDiffResp sampleGenApprove = (RunOutcome.skipped, []) :=
  filter_noop _ _ _ _ (Or.inr (by decide))

/-- Diff oracle answering HTTP 404. -/
def sampleDiffResp404 : String → DiffResponse :=
  fun _ => { status_code := 404, text := "Not Found" }

/-- Diff oracle answering HTTP 200 with a whitespace-only body. -/
def sampleDiffRespBlank : String → DiffResponse :=
  fun _ => { status_code := 200, text := "  \n\t " }

/-- A `pull_request` record missing its `diff_url` key. -/
def noDiffUrlPR : PRRecord :=
  { diff_url := none,
    comments_url := some "https://example.com/pr/1/comments",
    statuses_url := some "https://example.com/statuses/abc",
    title := some "Fix bug",
    user := some { login := some "octocat" } }

/-- C2: every run that reaches the status-reporting step posts exactly one
status, the one given by the total deterministic verdict mapping
ChangesRequested ↦ ("failure", ...), Approved ↦ ("success", ...),
Inconclusive ↦ ("error", ...), applied to the review text it posted. -/
theorem status_mapping_spec (payload : Payload) (kestra : Option String)
    (diffResp : String → DiffResponse) (gen : String → GenResult)
    (trace : List HttpCall)
    (h : run payload kestra diffResp gen = (RunOutcome.completed, trace)) :
    statusDescription Verdict.ChangesRequested =
      ("failure", "AI Review failed: Changes Requested.") ∧
    statusDescription Verdict.Approved =
      ("success", "AI Review passed successfully.") ∧
    statusDescription Verdict.Inconclusive =
      ("error", "AI Review was inconclusive.") ∧
    ∃ du p curl surl review,
      trace = [HttpCall.getDiff du, HttpCall.genModel p,
        post_comment curl review,
        update_pr_status surl (statusDescription (classify review)).1 kestra
          (statusDescription (classify review)).2] := by
  obtain ⟨pr, du, curl, surl, title, u, login, code_diff,
    hpr, hact2, hdu, hcu, hsu, hti, hu, hl, hg, htr⟩ :=
    run_completed_inv payload kestra diffResp gen trace h
  exact ⟨rfl, rfl, rfl, du, _, curl, surl, _, htr⟩

/-- Witness for C2 on a concrete approving run. -/
theorem status_mapping_spec_witness :
    statusDescription Verdict.ChangesRequested =
      ("failure", "AI Review failed: Changes Requested.") ∧
    statusDescription Verdict.Approved =
      ("success", "AI Review passed successfully.") ∧
    statusDescription Verdict.Inconclusive =
      ("error", "AI Review was inconclusive.") ∧
    ∃ du p curl surl review,
      (run samplePayload none sampleDiffResp sampleGenApprove).2 =
        [HttpCall.getDiff du, HttpCall.genModel p,
         post_comment curl review,
         update_pr_status surl (statusDescription (classify review)).1 none
           (statusDescription (classify review)).2] :=
  status_mapping_spec samplePayload none sampleDiffResp sampleGenApprove
    (run samplePayload none sampleDiffResp sampleGenApprove).2 rfl

/-- C5: `get_pr_diff` returns the body on HTTP 200 and absence otherwise,
and a non-200 diff fetch ends the run right there: no model call, no
comment, no status, only the diff GET in the trace. -/
theorem nonok_diff_fetch (payload : Payload) (kestra : Option String)
    (diffResp : String → DiffResponse) (gen : String → GenResult)
    (pr : PRRecord) (du curl surl : String)
    (hpr : payload.pull_request = some pr)
    (hact : actionAllowed payload.action = true)
    (hdu : pr.diff_url = some du)
    (hcu : pr.comments_url = some curl)
    (hsu : pr.statuses_url = some surl)
    (hcode : (diffResp du).status_code ≠ 200) :
    get_pr_diff (diffResp du) = none ∧
    (∀ r : DiffResponse, r.status_code = 200 → get_pr_diff r = some r.text) ∧
    run payload kestra diffResp gen = (RunOutcome.skipped, [HttpCall.getDiff du]) := by
  have hg : get_pr_diff (diffResp du) = none := by simp [get_pr_diff, hcode]
  refine ⟨hg, fun r h200 => by simp [get_pr_diff, h200], ?_⟩
  unfold run
  rw [hpr]
  simp only [hact, Bool.not_true, Bool.false_eq_true, if_false, hdu, hcu, hsu, hg]

/-- Witness for C5 on a concrete 404 response. -/
theorem nonok_diff_fetch_witness :
    get_pr_diff (sampleDiffResp404 "https://example.com/pr/1.diff") = none ∧
    (∀ r : DiffResponse, r.status_code = 200 → get_pr_diff r = some r.text) ∧
    run samplePayload none sampleDiffResp404 sampleGenApprove =
      (RunOutcome.skipped, [HttpCall.getDiff "https://example.com/pr/1.diff"]) :=
  nonok_diff_fetch samplePayload none sampleDiffResp404 sampleGenApprove
    samplePR _ _ _ rfl (by decide) rfl rfl rfl (by decide)

/-- C7: every run that posts a comment posts exactly the Review Engine's
output for the fetched diff — the review text — followed by the fixed
attribution suffix, to the pull request's comments endpoint. -/
theorem comment_body_spec (payload : Payload) (kestra : Option String)
    (diffResp : String → DiffResponse) (gen : String → GenResult)
    (trace : List HttpCall)
    (h : run payload kestra diffResp gen = (RunOutcome.completed, trace)) :
    ∃ pr du curl title u login code_diff c1 c2 c4,
      payload.pull_request = some pr ∧
      pr.comments_url = some curl ∧
      pr.diff_url = some du ∧
      pr.title = some title ∧
      pr.user = some u ∧
      u.login = some login ∧
      get_pr_diff (diffResp du) = some code_diff ∧
      trace = [c1, c2,
        HttpCall.postComment curl
          (analyze_code_with_gemini gen code_diff title login ++
            "\n\n_— Reviewed by OS-Maintainer Bot 🤖_"), c4] := by
  obtain ⟨pr, du, curl, surl, title, u, login, code_diff,
    hpr, hact2, hdu, hcu, hsu, hti, hu, hl, hg, htr⟩ :=
    run_completed_inv payload kestra diffResp gen trace h
  exact ⟨pr, du, curl, title, u, login, code_diff, _, _, _,
    hpr, hcu, hdu, hti, hu, hl, hg, by rw [htr]; rfl⟩

/-- Witness for C7 on a concrete approving run. -/
theorem comment_body_spec_witness :
    ∃ pr du curl title u login code_diff c1 c2 c4,
      samplePayload.pull_request = some pr ∧
      pr.comments_url = some curl ∧
      pr.diff_url = some du ∧
      pr.title = some title ∧
      pr.user = some u ∧
      u.login = some login ∧
      get_pr_diff (sampleDiffResp du) = some code_diff ∧
      (run samplePayload none sampleDiffResp sampleGenApprove).2 = [c1, c2,
        HttpCall.postComment curl
          (analyze_code_with_gemini sampleGenApprove code_diff title login ++
            "\n\n_— Reviewed by OS-Maintainer Bot 🤖_"), c4] :=
  comment_body_spec samplePayload none sampleDiffResp sampleGenApprove
    (run samplePayload none sampleDiffResp sampleGenApprove).2 rfl

/-- C9: even on HTTP 200, a diff body that is empty or all whitespace ends
the run silently after the fetch: no model call, no comment, no status. -/
theorem blank_diff_skip (payload : Payload) (kestra : Option String)
    (diffResp : String → DiffResponse) (gen : String → GenResult)
    (pr : PRRecord) (du curl surl : String)
    (hpr : payload.pull_request = some pr)
    (hact : actionAllowed payload.action = true)
    (hdu : pr.diff_url = some du)
    (hcu : pr.comments_url = some curl)
    (hsu : pr.statuses_url = some surl)
    (hcode : (diffResp du).status_code = 200)
    (hblank : isBlank (diffResp du).text = true) :
    run payload kestra diffResp gen = (RunOutcome.skipped, [HttpCall.getDiff du]) := by
  have hg : get_pr_diff (diffResp du) = some (diffResp du).text := by
    simp [get_pr_diff, hcode]
  unfold run
  rw [hpr]
  simp only [hact, Bool.not_true, Bool.false_eq_true, if_false, hdu, hcu, hsu,
    hg, hblank, if_true]

/-- Witness for C9 on a concrete whitespace-only 200 body. -/
theorem blank_diff_skip_witness :
    run samplePayload none sampleDiffRespBlank sampleGenApprove =
      (RunOutcome.skipped, [HttpCall.getDiff "https://example.com/pr/1.diff"]) :=
  blank_diff_skip samplePayload none sampleDiffRespBlank sampleGenApprove
    samplePR _ _ _ rfl (by decide) rfl rfl rfl (by decide) (by decide)

/-- C10: an event that passes the filter but whose `pull_request` lacks
`diff_url`, `comments_url` or `statuses_url` aborts with an uncaught
key-lookup error before any outbound call — not a silent skip. -/
theorem missing_url_keyerror (payload : Payload) (kestra : Option String)
    (diffResp : String → DiffResponse) (gen : String → GenResult)
    (pr : PRRecord)
    (hpr : payload.pull_request = some pr)
    (hact : actionAllowed payload.action = true)
    (h : pr.diff_url = none ∨ pr.comments_url = none ∨ pr.statuses_url = none) :
    ∃ k, run payload kestra diffResp gen = (RunOutcome.keyError k, []) ∧
      (k = "diff_url" ∨ k = "comments_url" ∨ k = "statuses_url") := by
  unfold run
  rw [hpr]
  simp only [hact, Bool.not_true, Bool.false_eq_true, if_false]
  cases hdu : pr.diff_url with
  | none => exact ⟨"diff_url", rfl, Or.inl rfl⟩
  | some du =>
    cases hcu : pr.comments_url with
    | none => exact ⟨"comments_url", rfl, Or.inr (Or.inl rfl)⟩
    | some curl =>
      cases hsu : pr.statuses_url with
      | none => exact ⟨"statuses_url", rfl, Or.inr (Or.inr rfl)⟩
      | some surl =>
        rcases h with h | h | h
        · rw [hdu] at h; cases h
        · rw [hcu] at h; cases h
        · rw [hsu] at h; cases h

/-- Witness for C10 on a record missing `diff_url`. -/
theorem missing_url_keyerror_witness :
    ∃ k, run { action := some "opened", pull_request := some noDiffUrlPR } none
        sampleDiffResp sampleGenApprove = (RunOutcome.keyError k, []) ∧
      (k = "diff_url" ∨ k = "comments_url" ∨ k = "statuses_url") :=
  missing_url_keyerror _ none sampleDiffResp sampleGenApprove noDiffUrlPR
    rfl (by decide) (Or.inl rfl)

/-- The `state` fields of the status POSTs in a trace. -/
def statusStates (trace : List HttpCall) : List String :=
  trace.filterMap fun c => match c with
    | HttpCall.postStatus _ s _ _ _ => some s
    | _ => none

/-- Model oracle whose raised failure description is itself the
REQUEST CHANGES marker. -/
def sampleGenErrRC : String → GenResult :=
  fun _ => GenResult.err "⚠️ **REQUEST CHANGES**"

/-- Model oracle raising a plain timeout-style failure. -/
def sampleGenErrTimeout : String → GenResult :=
  fun _ => GenResult.err "Deadline Exceeded"

/-- C8: a missing or unparseable event payload, or a missing credential,
makes the process exit nonzero before any outbound call of the pipeline. -/
theorem config_error_exit (github_payload : Option String)
    (parse : String → Option Payload)
    (github_token google_api_key kestra : Option String)
    (diffResp : String → DiffResponse) (gen : String → GenResult)
    (h : github_payload = none ∨ github_payload = some "" ∨
      (∃ pj, github_payload = some pj ∧ parse pj = none) ∨
      truthy github_token = false ∨ truthy google_api_key = false) :
    toplevel github_payload parse github_token google_api_key kestra diffResp gen =
      (TopOutcome.exitNonzero, []) := by
  unfold toplevel
  rcases h with h | h | ⟨pj, hpj, hparse⟩ | h | h
  · rw [h]
  · rw [h]; rfl
  · rw [hpj]
    by_cases he : pj.isEmpty
    · simp [he]
    · simp [he, hparse]
  · cases hgp : github_payload with
    | none => rfl
    | some pj =>
      by_cases he : pj.isEmpty
      · simp [he]
      · cases hp : parse pj with
        | none => simp [he, hp]
        | some payload => simp [he, hp, h]
  · cases hgp : github_payload with
    | none => rfl
    | some pj =>
      by_cases he : pj.isEmpty
      · simp [he]
      · cases hp : parse pj with
        | none => simp [he, hp]
        | some payload => simp [he, hp, h]

/-- Witness for C8 with the source-control token missing. -/
theorem config_error_exit_witness :
    toplevel (some "x") (fun _ => some samplePayload) none (some "key") none
      sampleDiffResp sampleGenApprove = (TopOutcome.exitNonzero, []) :=
  config_error_exit (some "x") (fun _ => some samplePayload) none (some "key")
    none sampleDiffResp sampleGenApprove
    (Or.inr (Or.inr (Or.inr (Or.inl rfl))))

set_option maxRecDepth 40000 in
/-- Counterexample to C6 as stated: when the generation failure's own
description contains the REQUEST CHANGES marker, the synthesized review text
classifies as ChangesRequested, so the run posts a status with state
"failure", not "error". -/
theorem ai_error_status_counterexample :
    statusStates (run samplePayload none sampleDiffResp sampleGenErrRC).2 =
      ["failure"] ∧ "failure" ≠ "error" :=
  ⟨by decide, by decide⟩

/-- C6 (amended): a generation failure is never propagated — for every
failure, the synthesized review text embeds the "AI Error" marker and the
failure's description and the run posts it as the comment and sets exactly
one status; provided that synthesized text contains neither verdict marker,
that status has state "error" (Inconclusive verdict). -/
theorem ai_error_handling (payload : Payload) (kestra : Option String)
    (diffResp : String → DiffResponse) (gen : String → GenResult)
    (pr : PRRecord) (du curl surl title : String) (u : PRUser)
    (login e : String)
    (hpr : payload.pull_request = some pr)
    (hact : actionAllowed payload.action = true)
    (hdu : pr.diff_url = some du)
    (hcu : pr.comments_url = some curl)
    (hsu : pr.statuses_url = some surl)
    (hcode : (diffResp du).status_code = 200)
    (hblank : isBlank (diffResp du).text = false)
    (hti : pr.title = some title)
    (hu : pr.user = some u)
    (hl : u.login = some login)
    (herr : gen (buildPrompt (truncateDiff (diffResp du).text) title login) =
      GenResult.err e) :
    analyze_code_with_gemini gen (diffResp du).text title login = aiErrorText e ∧
    (∃ pre post, aiErrorText e = pre ++ "AI Error" ++ post) ∧
    (∃ pre post, aiErrorText e = pre ++ e ++ post) ∧
    ∃ st desc,
      run payload kestra diffResp gen =
        (RunOutcome.completed,
         [HttpCall.getDiff du,
          HttpCall.genModel (buildPrompt (truncateDiff (diffResp du).text) title login),
          post_comment curl (aiErrorText e),
          update_pr_status surl st kestra desc]) ∧
      (¬ requestChangesMarker.data <:+: (aiErrorText e).data →
        ¬ approveMarker.data <:+: (aiErrorText e).data →
        st = "error" ∧ desc = "AI Review was inconclusive.") := by
  have hrev : analyze_code_with_gemini gen (diffResp du).text title login =
      aiErrorText e := by
    unfold analyze_code_with_gemini
    rw [herr]
  have htr := run_completed_trace payload kestra diffResp gen pr du curl surl
    title u login hpr hact hdu hcu hsu hcode hblank hti hu hl
  rw [hrev] at htr
  refine ⟨hrev, ?_, ⟨"⚠️ **AI Error:** Could not analyze code. The model failed to respond. (", ")", rfl⟩,
    (statusDescription (classify (aiErrorText e))).1,
    (statusDescription (classify (aiErrorText e))).2, htr, ?_⟩
  · refine ⟨"⚠️ **", ":** Could not analyze code. The model failed to respond. (" ++ e ++ ")", ?_⟩
    rw [← String.append_assoc, ← String.append_assoc]
    unfold aiErrorText
    rfl
  · intro hnorc hnoap
    have c1 : strContains (aiErrorText e) requestChangesMarker = false := by
      simpa [strContains] using hnorc
    have c2 : strContains (aiErrorText e) approveMarker = false := by
      simpa [strContains] using hnoap
    have hcl : classify (aiErrorText e) = Verdict.Inconclusive := by
      simp [classify, c1, c2]
    rw [hcl]
    exact ⟨rfl, rfl⟩

set_option maxRecDepth 40000 in
/-- Witness for the amended C6 on a concrete timeout failure, with the
no-marker proviso also discharged concretely. -/
theorem ai_error_handling_witness :
    analyze_code_with_gemini sampleGenErrTimeout
      (sampleDiffResp "https://example.com/pr/1.diff").text "Fix bug" "octocat" =
      aiErrorText "Deadline Exceeded" ∧
    (∃ pre post, aiErrorText "Deadline Exceeded" = pre ++ "AI Error" ++ post) ∧
    (∃ pre post, aiErrorText "Deadline Exceeded" =
      pre ++ "Deadline Exceeded" ++ post) ∧
    run samplePayload none sampleDiffResp sampleGenErrTimeout =
      (RunOutcome.completed,
       [HttpCall.getDiff "https://example.com/pr/1.diff",
        HttpCall.genModel (buildPrompt
          (truncateDiff (sampleDiffResp "https://example.com/pr/1.diff").text)
          "Fix bug" "octocat"),
        post_comment "https://example.com/pr/1/comments"
          (aiErrorText "Deadline Exceeded"),
        update_pr_status "https://example.com/statuses/abc" "error" none
          "AI Review was inconclusive."]) := by
  obtain ⟨h1, h2, h3, st, desc, hrun, himp⟩ :=
    ai_error_handling samplePayload none sampleDiffResp sampleGenErrTimeout
      samplePR "https://example.com/pr/1.diff" "https://example.com/pr/1/comments"
      "https://example.com/statuses/abc" "Fix bug" { login := some "octocat" }
      "octocat" "Deadline Exceeded" rfl (by decide) rfl rfl rfl (by decide)
      (by decide) rfl rfl rfl rfl
  obtain ⟨hst, hdesc⟩ := himp (by decide) (by decide)
  subst hst
  subst hdesc
  exact ⟨h1, h2, h3, hrun⟩
